import Mathlib

set_option maxRecDepth 16384

/-!
Shallow embedding of the zylch-cli thin client (src/zylch_cli/config.py and
src/zylch_cli/cli.py) and proofs about its token handling, session state and
command-dispatch loop.

Machine-level conventions: Python strings are Lean `String`s (lists of
characters); bytes are `List Nat` with every element below 256; fallible
library calls return `Except PyErr`; Python `None` results are `Option.none`.
-/

namespace Zylch

/-- Python exception kinds raised by the library calls this client uses.
`parse_jwt_expiry` catches all of them via `except Exception`. -/
inductive PyErr where
  | valueError
  | binasciiError
  | unicodeDecodeError
  | jsonDecodeError
  | attributeError
  | typeError
  deriving DecidableEq

/-- ASCII model of the whitespace set stripped by Python `str.strip()`. -/
def pyIsSpace (c : Char) : Bool :=
  c = ' ' ∨ c = '\t' ∨ c = '\n' ∨ c = '\r' ∨ c = '\x0B' ∨ c = '\x0C'

def pyStripList (l : List Char) : List Char :=
  ((l.dropWhile pyIsSpace).reverse.dropWhile pyIsSpace).reverse

/-- Model of Python `str.strip()` with no argument (ASCII whitespace). -/
def pyStrip (s : String) : String := ⟨pyStripList s.data⟩

/-- ASCII model of Python `str.lower()`. -/
def pyLowerChar (c : Char) : Char :=
  if 'A' ≤ c ∧ c ≤ 'Z' then Char.ofNat (c.toNat + 32) else c

def pyLower (s : String) : String := ⟨s.data.map pyLowerChar⟩

/-- Model of Python `str.split(sep)` for a one-character separator: adjacent
separators produce empty fields and the empty string yields one empty field. -/
def pySplit (sep : Char) : List Char → List (List Char)
  | [] => [[]]
  | c :: cs =>
    if c = sep then [] :: pySplit sep cs
    else
      match pySplit sep cs with
      | r :: rs => (c :: r) :: rs
      | [] => [[c]]

def startsWithList : List Char → List Char → Bool
  | [], _ => true
  | _ :: _, [] => false
  | p :: ps, c :: cs => p = c && startsWithList ps cs

/-- Model of Python `s.startswith(p)`. -/
def pyStartsWith (s p : String) : Bool := startsWithList p.data s.data

/-- Suffix of a character list after its first space: Python
`s.split(' ', 1)[1]` when a space is present. -/
def afterFirstSpace (l : List Char) : List Char :=
  (l.dropWhile (· ≠ ' ')).drop 1

/-! ### base64url decoding, modelling `base64.urlsafe_b64decode` -/

/-- Decode table of the standard base64 alphabet. -/
def b64CharVal (c : Char) : Option Nat :=
  if 'A' ≤ c ∧ c ≤ 'Z' then some (c.toNat - 65)
  else if 'a' ≤ c ∧ c ≤ 'z' then some (c.toNat - 71)
  else if '0' ≤ c ∧ c ≤ '9' then some (c.toNat + 4)
  else if c = '+' then some 62
  else if c = '/' then some 63
  else none

/-- Core of `binascii.a2b_base64` in its default non-strict mode, on input
already restricted to alphabet characters and `=`: data characters accumulate
six bits each; a `=` seen with at least two data characters in the current
quad counts toward padding and, once the quad is complete, decoding stops and
the rest of the input is ignored; a `=` earlier in a quad is ignored; input
ending in an incomplete quad is an error. -/
def a2bAux : List Char → Nat → Nat → Nat → List Nat → Except PyErr (List Nat)
  | [], quadPos, _, _, acc =>
    if quadPos = 0 then .ok acc.reverse else .error .binasciiError
  | c :: cs, quadPos, leftChar, pads, acc =>
    if c = '=' then
      if quadPos ≥ 2 then
        if quadPos + (pads + 1) ≥ 4 then .ok acc.reverse
        else a2bAux cs quadPos leftChar (pads + 1) acc
      else a2bAux cs quadPos leftChar pads acc
    else
      match b64CharVal c with
      | none => a2bAux cs quadPos leftChar pads acc
      | some v =>
        match quadPos with
        | 0 => a2bAux cs 1 v 0 acc
        | 1 => a2bAux cs 2 (v % 16) 0 ((leftChar * 4 + v / 16) :: acc)
        | 2 => a2bAux cs 3 (v % 4) 0 ((leftChar * 16 + v / 4) :: acc)
        | _ => a2bAux cs 0 0 0 ((leftChar * 64 + v) :: acc)

/-- Model of `base64.urlsafe_b64decode` on a `str` argument: the string is
ASCII-encoded (`ValueError` otherwise), `-`/`_` are mapped to `+`/`/`,
characters outside the base64 alphabet and `=` are discarded, and the result
is fed to `binascii.a2b_base64`. -/
def urlsafe_b64decode (payload : List Char) : Except PyErr (List Nat) :=
  if payload.any (fun c => c.toNat ≥ 128) then .error .valueError
  else
    let translated := payload.map
      (fun c => if c = '-' then '+' else if c = '_' then '/' else c)
    let filtered := translated.filter (fun c => (b64CharVal c).isSome || c = '=')
    a2bAux filtered 0 0 0 []

/-! ### UTF-8 decoding, modelling `bytes.decode('utf-8')` (strict) -/

/-- Continuation-byte test. -/
abbrev utf8Cont (b : Nat) : Prop := 0x80 ≤ b ∧ b ≤ 0xBF

/-- Strict UTF-8 decoder: rejects overlong forms, surrogates and code points
above 0x10FFFF, as Python's strict `utf-8` codec does.  The `json.loads`
encoding auto-detection for UTF-16/32 byte patterns is not modelled. -/
def utf8Decode : List Nat → Option (List Char)
  | [] => some []
  | b :: rest =>
    if b ≤ 0x7F then (utf8Decode rest).map (fun cs => Char.ofNat b :: cs)
    else if 0xC2 ≤ b ∧ b ≤ 0xDF then
      match rest with
      | b2 :: rest2 =>
        if utf8Cont b2 then
          (utf8Decode rest2).map
            (fun cs => Char.ofNat ((b - 0xC0) * 64 + (b2 - 0x80)) :: cs)
        else none
      | [] => none
    else if 0xE0 ≤ b ∧ b ≤ 0xEF then
      match rest with
      | b2 :: b3 :: rest3 =>
        if (if b = 0xE0 then 0xA0 ≤ b2 ∧ b2 ≤ 0xBF
            else if b = 0xED then 0x80 ≤ b2 ∧ b2 ≤ 0x9F
            else utf8Cont b2) ∧ utf8Cont b3 then
          (utf8Decode rest3).map (fun cs =>
            Char.ofNat ((b - 0xE0) * 4096 + (b2 - 0x80) * 64 + (b3 - 0x80)) :: cs)
        else none
      | _ => none
    else if 0xF0 ≤ b ∧ b ≤ 0xF4 then
      match rest with
      | b2 :: b3 :: b4 :: rest4 =>
        if (if b = 0xF0 then 0x90 ≤ b2 ∧ b2 ≤ 0xBF
            else if b = 0xF4 then 0x80 ≤ b2 ∧ b2 ≤ 0x8F
            else utf8Cont b2) ∧ utf8Cont b3 ∧ utf8Cont b4 then
          (utf8Decode rest4).map (fun cs =>
            Char.ofNat ((b - 0xF0) * 262144 + (b2 - 0x80) * 4096 +
              (b3 - 0x80) * 64 + (b4 - 0x80)) :: cs)
        else none
      | _ => none
    else none

/-! ### JSON parsing, modelling `json.loads` -/

/-- JSON values as produced by Python `json.loads`.  JSON numbers are
modelled as integers; numerals with a fraction or exponent (Python floats)
are outside the embedding and are mapped to a parse failure, as are the
nonstandard `NaN`/`Infinity` literals. -/
inductive JVal where
  | null
  | bool (b : Bool)
  | num (n : Int)
  | str (s : String)
  | arr (elems : List JVal)
  | obj (fields : List (String × JVal))

/-- JSON whitespace (` `, tab, newline, carriage return). -/
def jsonWs (c : Char) : Bool := c = ' ' || c = '\t' || c = '\n' || c = '\r'

def skipWs (cs : List Char) : List Char := cs.dropWhile jsonWs

def hexVal (c : Char) : Option Nat :=
  if '0' ≤ c ∧ c ≤ '9' then some (c.toNat - 48)
  else if 'a' ≤ c ∧ c ≤ 'f' then some (c.toNat - 87)
  else if 'A' ≤ c ∧ c ≤ 'F' then some (c.toNat - 55)
  else none

def escChar (e : Char) : Option Char :=
  if e = '"' then some '"'
  else if e = '\\' then some '\\'
  else if e = '/' then some '/'
  else if e = 'b' then some '\x08'
  else if e = 'f' then some '\x0C'
  else if e = 'n' then some '\n'
  else if e = 'r' then some '\r'
  else if e = 't' then some '\t'
  else none

/-- JSON string body after the opening quote, in strict mode: raw control
characters are rejected; `\uXXXX` escapes are decoded, pairing surrogates.
Python tolerates lone surrogates; Lean characters cannot represent them, so
they are mapped to a parse failure (no theorem below depends on them). -/
def jstring : List Char → Option (String × List Char)
  | [] => none
  | c :: rest =>
    if c = '"' then some ("", rest)
    else if c = '\\' then
      match rest with
      | [] => none
      | e :: rest2 =>
        if e = 'u' then
          match rest2 with
          | h1 :: h2 :: h3 :: h4 :: rest6 =>
            match hexVal h1, hexVal h2, hexVal h3, hexVal h4 with
            | some v1, some v2, some v3, some v4 =>
              let v := v1 * 4096 + v2 * 256 + v3 * 16 + v4
              if 0xD800 ≤ v ∧ v ≤ 0xDBFF then
                match rest6 with
                | '\\' :: 'u' :: g1 :: g2 :: g3 :: g4 :: rest12 =>
                  match hexVal g1, hexVal g2, hexVal g3, hexVal g4 with
                  | some w1, some w2, some w3, some w4 =>
                    let w := w1 * 4096 + w2 * 256 + w3 * 16 + w4
                    if 0xDC00 ≤ w ∧ w ≤ 0xDFFF then
                      (jstring rest12).map (fun p =>
                        (⟨Char.ofNat (0x10000 + (v - 0xD800) * 1024 +
                          (w - 0xDC00)) :: p.1.data⟩, p.2))
                    else none
                  | _, _, _, _ => none
                | _ => none
              else if 0xDC00 ≤ v ∧ v ≤ 0xDFFF then none
              else (jstring rest6).map
                (fun p => (⟨Char.ofNat v :: p.1.data⟩, p.2))
            | _, _, _, _ => none
          | _ => none
        else
          match escChar e with
          | some ec => (jstring rest2).map (fun p => (⟨ec :: p.1.data⟩, p.2))
          | none => none
    else if c.toNat < 0x20 then none
    else (jstring rest).map (fun p => (⟨c :: p.1.data⟩, p.2))

/-- Greedily consume decimal digits. -/
def digitsVal (acc : Nat) : List Char → Nat × List Char
  | [] => (acc, [])
  | c :: cs =>
    if c.isDigit then digitsVal (acc * 10 + (c.toNat - 48)) cs
    else (acc, c :: cs)

/-- True when the next character would extend an integer numeral into a
float numeral (fraction or exponent part). -/
def floatFollower : List Char → Bool
  | [] => false
  | c :: _ => c = '.' || c = 'e' || c = 'E'

/-- Unsigned part of a JSON integer numeral: `0` or a nonzero digit followed
by digits, matching the integer part of Python json's number grammar. -/
def jnatPart : List Char → Option (Nat × List Char)
  | [] => none
  | c :: rest =>
    if c = '0' then
      if floatFollower rest then none else some (0, rest)
    else if c.isDigit then
      let p := digitsVal (c.toNat - 48) rest
      if floatFollower p.2 then none else some (p.1, p.2)
    else none

def jnumber (cs : List Char) : Option (JVal × List Char) :=
  match cs with
  | '-' :: rest => (jnatPart rest).map (fun p => (JVal.num (-(p.1 : Int)), p.2))
  | _ => (jnatPart cs).map (fun p => (JVal.num (p.1 : Int), p.2))

mutual

/-- Parse one JSON value at the head of the input (whitespace already
skipped by the caller); returns the value and the unconsumed rest. -/
def jparse (fuel : Nat) (cs : List Char) : Option (JVal × List Char) :=
  match fuel with
  | 0 => none
  | f + 1 =>
    match cs with
    | 'n' :: 'u' :: 'l' :: 'l' :: rest => some (.null, rest)
    | 't' :: 'r' :: 'u' :: 'e' :: rest => some (.bool true, rest)
    | 'f' :: 'a' :: 'l' :: 's' :: 'e' :: rest => some (.bool false, rest)
    | '"' :: rest => (jstring rest).map (fun p => (.str p.1, p.2))
    | '{' :: rest => jobj f (skipWs rest)
    | '[' :: rest => jarr f (skipWs rest)
    | c :: _ => if c = '-' || c.isDigit then jnumber cs else none
    | [] => none

def jobj (fuel : Nat) (cs : List Char) : Option (JVal × List Char) :=
  match fuel with
  | 0 => none
  | f + 1 =>
    match cs with
    | '}' :: rest => some (.obj [], rest)
    | _ => jmembers f cs []

def jmembers (fuel : Nat) (cs : List Char) (acc : List (String × JVal)) :
    Option (JVal × List Char) :=
  match fuel with
  | 0 => none
  | f + 1 =>
    match cs with
    | '"' :: rest =>
      match jstring rest with
      | none => none
      | some (k, r1) =>
        match skipWs r1 with
        | ':' :: r2 =>
          match jparse f (skipWs r2) with
          | none => none
          | some (v, r3) =>
            match skipWs r3 with
            | ',' :: r4 => jmembers f (skipWs r4) (acc ++ [(k, v)])
            | '}' :: r4 => some (.obj (acc ++ [(k, v)]), r4)
            | _ => none
        | _ => none
    | _ => none

def jarr (fuel : Nat) (cs : List Char) : Option (JVal × List Char) :=
  match fuel with
  | 0 => none
  | f + 1 =>
    match cs with
    | ']' :: rest => some (.arr [], rest)
    | _ => jitems f cs []

def jitems (fuel : Nat) (cs : List Char) (acc : List JVal) :
    Option (JVal × List Char) :=
  match fuel with
  | 0 => none
  | f + 1 =>
    match jparse f cs with
    | none => none
    | some (v, r) =>
      match skipWs r with
      | ',' :: r2 => jitems f (skipWs r2) (acc ++ [v])
      | ']' :: r2 => some (.arr (acc ++ [v]), r2)
      | _ => none

end

/-- Model of `json.loads` on the decoded payload bytes: UTF-8 decode, parse
one value, and require that only whitespace remains. -/
def json_loads (bytes : List Nat) : Except PyErr JVal :=
  match utf8Decode bytes with
  | none => .error .unicodeDecodeError
  | some chars =>
    match jparse (chars.length * 2 + 4) (skipWs chars) with
    | none => .error .jsonDecodeError
    | some (v, rest) =>
      if skipWs rest = [] then .ok v else .error .jsonDecodeError

/-! ### `parse_jwt_expiry` and `check_token_status` (config.py) -/

/-- Last-binding lookup: a Python dict built from JSON keeps the last
duplicate key. -/
def lookupLast (k : String) : List (String × JVal) → Option JVal
  | [] => none
  | (k2, v) :: rest =>
    match lookupLast k rest with
    | some w => some w
    | none => if k2 = k then some v else none

/-- Model of `data.get('exp')` (config.py line 39): `.get` exists only on
dict values (any other value raises `AttributeError`); a JSON `null` value
surfaces as the Python `None`. -/
def dict_get (data : JVal) (k : String) : Except PyErr (Option JVal) :=
  match data with
  | .obj fields =>
    match lookupLast k fields with
    | some .null => .ok none
    | some v => .ok (some v)
    | none => .ok none
  | _ => .error .attributeError

/-- Padding restoration from `parse_jwt_expiry` (config.py lines 31-34):
compute `4 - len(payload) % 4` and append that many `=` unless it is 4. -/
def padPayload (payload : List Char) : List Char :=
  let padding := 4 - payload.length % 4
  if padding ≠ 4 then payload ++ List.replicate padding '=' else payload

/-- Body of `parse_jwt_expiry` (config.py lines 23-39) before the
`except Exception` handler: each library failure is an explicit `PyErr`. -/
def parse_jwt_expiry_run (token : String) : Except PyErr (Option JVal) :=
  match pySplit '.' token.data with
  | [_, payload, _] =>
    match urlsafe_b64decode (padPayload payload) with
    | .error e => .error e
    | .ok decoded =>
      match json_loads decoded with
      | .error e => .error e
      | .ok data => dict_get data "exp"
  | _ => .ok none

/-- Model of `parse_jwt_expiry` (config.py lines 14-41): the
`try/except Exception` collapses every raised error to `None`.  The result
is whatever JSON value sits under the `exp` key: the function does not check
that it is a number. -/
def parse_jwt_expiry (token : String) : Option JVal :=
  match parse_jwt_expiry_run token with
  | .ok v => v
  | .error _ => none

/-- Python integer coercion as used by `exp - now`: ints are ints, bools are
0/1 (`bool` is an `int` subclass); strings, lists, dicts and `None` have no
integer value and make the subtraction raise `TypeError`.  Non-integer JSON
numbers (floats) are outside the embedding. -/
def jvalToPyInt : JVal → Option Int
  | .num n => some n
  | .bool b => some (if b then 1 else 0)
  | _ => none

/-- Model of `check_token_status` (config.py lines 44-66); `now` stands for
`int(time.time())`.  The function catches nothing, so a non-numeric `exp`
value makes `exp - now` raise `TypeError`, which escapes. -/
def check_token_status (token : String) (now : Int) :
    Except PyErr (Bool × Option Int) :=
  if token = "" then .ok (false, none)
  else
    match parse_jwt_expiry token with
    | none => .ok (true, none)
    | some v =>
      match jvalToPyInt v with
      | none => .error .typeError
      | some exp =>
        let seconds_remaining := exp - now
        .ok (decide (seconds_remaining > 0), some seconds_remaining)

/-- Model of `ZylchCLI.check_auth` (cli.py lines 66-88): False for an empty
token, otherwise the validity bit of `check_token_status`; an error raised
there propagates. -/
def check_auth (token : String) (now : Int) : Except PyErr Bool :=
  if token = "" then .ok false
  else
    match check_token_status token now with
    | .error e => .error e
    | .ok (isValid, _) => if isValid then .ok true else .ok false

/-! ### Session configuration, login and logout (cli.py) -/

/-- The fields of `CLIConfig` that the session logic reads and writes
(config.py lines 69-106; the offline and local-storage fields never change
in the modelled flows and are omitted). -/
structure Config where
  api_server_url : String
  session_token : String
  owner_id : String
  email : String
  deriving DecidableEq

/-- Outcome dictionary of `initiate_browser_login` when it returns a dict:
`error` is `some` exactly when the `'error'` key is present; the other three
model `result.get(...)`. -/
structure LoginResult where
  error : Option String
  token : Option String
  owner_id : Option String
  email : Option String
  deriving DecidableEq

/-- Possible outcomes of the `initiate_browser_login` call inside
`ZylchCLI.login`: the call raises, returns `None` (timeout), or returns a
result dictionary. -/
inductive LoginOutcome where
  | raised
  | timeout
  | result (r : LoginResult)
  deriving DecidableEq

/-- Observable result of one run of `ZylchCLI.login`: the configuration
afterwards, whether `save_config` was called, and the token passed to
`api_client.set_token` (if any). -/
structure LoginStep where
  config : Config
  saved : Bool
  clientTokenSet : Option String
  deriving DecidableEq

/-- Python truthiness of `result.get('token')`: `None` and the empty string
are falsy. -/
def truthyOpt (o : Option String) : Bool :=
  match o with
  | some s => s ≠ ""
  | none => false

/-- Model of `ZylchCLI.login` (cli.py lines 90-139).  The whole flow sits in
a `try/except Exception`; a raise before any assignment leaves everything
unchanged.  A `None` result (timeout), a result with an `'error'` key, and a
result without a truthy token all return before touching the session; only a
truthy token updates the three identity fields together, saves the config
and updates the API client token. -/
def login (c : Config) (o : LoginOutcome) : LoginStep :=
  match o with
  | .raised => ⟨c, false, none⟩
  | .timeout => ⟨c, false, none⟩
  | .result r =>
    if r.error.isSome then ⟨c, false, none⟩
    else if truthyOpt r.token then
      match r.token with
      | some t =>
        ⟨{ c with
            session_token := t
            owner_id := r.owner_id.getD ""
            email := r.email.getD "" }, true, some t⟩
      | none => ⟨c, false, none⟩
    else ⟨c, false, none⟩

/-- The local-session reset performed by `ZylchCLI.logout`
(cli.py lines 148-151): the three identity fields are emptied together. -/
def clearSession (c : Config) : Config :=
  { c with session_token := "", owner_id := "", email := "" }

/-- Model of `ZylchCLI.logout` (cli.py lines 141-154), parametrised by
whether the remote `api_client.logout()` call raises: the bare `except`
ignores any error, then the local session is cleared and the configuration
saved unconditionally. -/
def logoutRun (c : Config) (remoteRaises : Bool) : Config × Bool :=
  match (if remoteRaises then Except.error PyErr.valueError
         else Except.ok ()) with
  | .ok _ => (clearSession c, true)
  | .error _ => (clearSession c, true)

/-- All three identity fields are empty (the logged-out state). -/
def identityEmpty (c : Config) : Prop :=
  c.session_token = "" ∧ c.owner_id = "" ∧ c.email = ""

/-- The spec's SessionIdentity invariant: either the identity is fully empty
or the token is non-empty. -/
def sessionInvariant (c : Config) : Prop :=
  identityEmpty c ∨ c.session_token ≠ ""

/-! ### The chat dispatch loop (`ZylchCLI.chat`, cli.py lines 224-370) -/

/-- Classification of one input line, mirroring the `if`/`elif` chain of the
chat loop (cli.py lines 289-334): everything that is not blank, a quit
alias, a client-side auth/session command or a connect form falls through to
the send-to-server branch, whether or not it starts with `/`. -/
inductive Cmd where
  | empty
  | quit
  | login
  | logout
  | status
  | new
  | connect (service : Option String) (reset : Bool)
  | send
  deriving DecidableEq

/-- The `elif` chain on `cmd = user_input.strip().lower()`
(cli.py lines 297-334). -/
def classifyCmd (cmd : String) : Cmd :=
  if cmd = "/quit" ∨ cmd = "/exit" ∨ cmd = "/q" then .quit
  else if cmd = "/login" then .login
  else if cmd = "/logout" then .logout
  else if cmd = "/status" then .status
  else if cmd = "/new" then .new
  else if cmd = "/connect" then .connect none false
  else if cmd = "/connect anthropic" then .connect (some "anthropic") false
  else if cmd = "/connect google" then .connect (some "google") false
  else if cmd = "/connect microsoft" then .connect (some "microsoft") false
  else if cmd = "/connect --reset" then .connect none true
  else if pyStartsWith cmd "/connect " then
    .connect (some ⟨pyStripList (afterFirstSpace cmd.data)⟩) false
  else .send

/-- Classification of the raw input line: blank input short-circuits
(cli.py lines 290-291), otherwise the stripped lowercased text is matched. -/
def classifyInput (input : String) : Cmd :=
  if pyStrip input = "" then .empty
  else classifyCmd (pyLower (pyStrip input))

/-- Failure kinds of the remote API collaborator as caught by the chat loop
(cli.py lines 363-366); per the spec's external-interface contract all
remote-call failures are an auth-error kind (`ZylchAuthError`) or a generic
API-error kind (`ZylchAPIError`). -/
inductive RemoteErr where
  | authError
  | apiError (msg : String)
  deriving DecidableEq

/-- Reply of `api_client.send_chat_message`: the loop reads
`response.get('session_id')` and `response.get('response', '')`. -/
structure ChatResponse where
  session_id : Option String
  response : Option String
  deriving DecidableEq

/-- Mutable state of the chat loop: the persisted configuration plus the
conversation `session_id` local variable (cli.py line 243). -/
structure CLIState where
  config : Config
  session_id : Option String
  deriving DecidableEq

/-- Environment for one dispatch cycle: outcomes of the external calls the
cycle may make. -/
structure StepEnv where
  loginOutcome : LoginOutcome
  logoutRaises : Bool
  chatResult : Except RemoteErr ChatResponse

/-- Externally visible actions of one dispatch cycle. -/
inductive Effect where
  | goodbye
  | loginFlow
  | logoutRemote
  | loggedOutMsg
  | statusShown
  | newConversation
  | connectCmd (service : Option String) (reset : Bool)
  | notLoggedInErr
  | chatRequest (message : String) (session_id : Option String)
  | displayResponse (text : String)
  | sessionExpiredPrompt
  | apiErrorMsg (msg : String)
  deriving DecidableEq

/-- Whether the loop continues to the next prompt or exits. -/
inductive LoopCtl where
  | cont
  | exit
  deriving DecidableEq

structure StepResult where
  state : CLIState
  ctl : LoopCtl
  effects : List Effect
  deriving DecidableEq

/-- Action taken for a classified command (body of the chat loop after
classification, cli.py lines 297-366).  The connect flows change no
dispatcher state and are abstracted as a single effect; no claim below
concerns their internals. -/
def dispatchAct (st : CLIState) (env : StepEnv) (input : String) :
    Cmd → StepResult
  | .empty => ⟨st, .cont, []⟩
  | .quit => ⟨st, .exit, [.goodbye]⟩
  | .login => ⟨⟨(login st.config env.loginOutcome).config, st.session_id⟩,
      .cont, [.loginFlow]⟩
  | .logout => ⟨⟨(logoutRun st.config env.logoutRaises).1, st.session_id⟩,
      .cont, [.logoutRemote, .loggedOutMsg]⟩
  | .status => ⟨st, .cont, [.statusShown]⟩
  | .new => ⟨⟨st.config, none⟩, .cont, [.newConversation]⟩
  | .connect service reset => ⟨st, .cont, [.connectCmd service reset]⟩
  | .send =>
    if st.config.session_token = "" then ⟨st, .cont, [.notLoggedInErr]⟩
    else
      match env.chatResult with
      | .ok resp => ⟨⟨st.config, resp.session_id⟩, .cont,
          [.chatRequest input st.session_id,
           .displayResponse (resp.response.getD "")]⟩
      | .error .authError => ⟨st, .cont,
          [.chatRequest input st.session_id, .sessionExpiredPrompt]⟩
      | .error (.apiError m) => ⟨st, .cont,
          [.chatRequest input st.session_id, .apiErrorMsg m]⟩

/-- One full dispatch cycle of the chat loop on one input line. -/
def dispatchStep (st : CLIState) (env : StepEnv) (input : String) :
    StepResult :=
  dispatchAct st env input (classifyInput input)

/-! ### Spec-side definition of parseExpiry (for the C6 refinement claim) -/

/-- The `exp` claim of a decoded JSON payload, if present (a JSON `null`
claim is the Python `None`); a non-object payload carries no claims. -/
def claimLookup (data : JVal) (k : String) : Option JVal :=
  match data with
  | .obj fields =>
    match lookupLast k fields with
    | some .null => none
    | some v => some v
    | none => none
  | _ => none

/-- Formalisation of the spec's wording of `TokenCodec.parseExpiry`
(spec section 4.1): split on `.` and fail to `None` unless exactly 3
segments; base64url-decode segment 2 after restoring `=` padding to a
multiple of 4 characters; fail to `None` on decode or JSON-parse error;
otherwise return the `exp` claim of the decoded payload if present, else
`None`. -/
def parseExpirySpec (token : String) : Option JVal :=
  match pySplit '.' token.data with
  | [_, payload, _] =>
    match (urlsafe_b64decode (padPayload payload)).toOption with
    | none => none
    | some decoded =>
      match (json_loads decoded).toOption with
      | none => none
      | some data => claimLookup data "exp"
  | _ => none

/-! ### Claim theorems -/

/-- C1 (code bug exhibit): `parse_jwt_expiry` promises `Optional[int]` but
returns `data.get('exp')` unchecked.  On the token `x.eyJleHAiOiJhIn0.y`,
whose payload decodes to a JSON object whose `exp` value is the string `a`,
it returns that string: neither `None` nor an integer, contradicting the
claim and the function's own signature and docstring. -/
theorem c1_parse_expiry_nonint_exp :
    parse_jwt_expiry "x.eyJleHAiOiJhIn0.y" = some (JVal.str "a") ∧
    parse_jwt_expiry "x.eyJleHAiOiJhIn0.y" ≠ none ∧
    ∀ n : Int, parse_jwt_expiry "x.eyJleHAiOiJhIn0.y" ≠ some (JVal.num n) := by
  have h : parse_jwt_expiry "x.eyJleHAiOiJhIn0.y" = some (JVal.str "a") := rfl
  refine ⟨h, ?_, ?_⟩
  · rw [h]; simp
  · intro n; rw [h]; simp

/-- C2 (code bug exhibit): `check_token_status` behaves as claimed on an
empty token, an expired token (`exp = 0`, `now = 1`) and a future token
(`exp = 3600`, `now = 0`), but on a token whose `exp` claim is the string
`a` the subtraction `exp - now` raises `TypeError`, which escapes the
function instead of producing the claimed tuple. -/
theorem c2_check_token_status_behavior :
    check_token_status "" 1000 = .ok (false, none) ∧
    check_token_status "x.eyJleHAiOjB9.y" 1 = .ok (false, some (-1)) ∧
    check_token_status "x.eyJleHAiOjM2MDB9.y" 0 = .ok (true, some 3600) ∧
    check_token_status "x.eyJleHAiOiJhIn0.y" 1000 = .error .typeError :=
  ⟨rfl, rfl, rfl, rfl⟩

/-- C3 counterexample: with a stored token whose `exp` is 0 and `now = 1000`
the session is not authenticated in the `isAuthenticated` sense
(`check_auth` reports `false`), yet the dispatcher still performs the remote
chat call for the input `hello` and emits no auth-required message: the send
guard checks only that the token is non-empty. -/
theorem c3_expired_token_still_sends :
    check_auth "x.eyJleHAiOjB9.y" 1000 = .ok false ∧
    Effect.chatRequest "hello" none ∈
      (dispatchStep
        ⟨⟨"http://localhost:9000", "x.eyJleHAiOjB9.y", "o1", "e@x"⟩, none⟩
        ⟨.timeout, false, .ok ⟨some "s1", some "hi"⟩⟩ "hello").effects ∧
    Effect.notLoggedInErr ∉
      (dispatchStep
        ⟨⟨"http://localhost:9000", "x.eyJleHAiOjB9.y", "o1", "e@x"⟩, none⟩
        ⟨.timeout, false, .ok ⟨some "s1", some "hi"⟩⟩ "hello").effects := by
  refine ⟨rfl, ?_, ?_⟩ <;> decide

/-- C3 (amended): for a non-empty input that reaches the send branch and
does not begin with `/`, the dispatcher sends the chat message to the remote
collaborator exactly when the stored session token is non-empty (local
expiry is not checked at send time); with an empty token it reports the
auth-required message and performs no remote call; on a successful send it
passes the current session id and replaces it with the one from the
reply. -/
theorem c3_chat_send_guard (st : CLIState) (env : StepEnv) (input : String)
    (hsend : classifyInput input = .send)
    (_hnotslash : pyStartsWith (pyStrip input) "/" = false) :
    (st.config.session_token = "" →
      dispatchStep st env input = ⟨st, .cont, [.notLoggedInErr]⟩) ∧
    (st.config.session_token ≠ "" →
      ∀ resp, env.chatResult = .ok resp →
        dispatchStep st env input =
          ⟨⟨st.config, resp.session_id⟩, .cont,
           [.chatRequest input st.session_id,
            .displayResponse (resp.response.getD "")]⟩) := by
  unfold dispatchStep
  rw [hsend]
  constructor
  · intro h
    simp [dispatchAct, h]
  · intro h resp hr
    simp [dispatchAct, h, hr]

/-- Witness for `c3_chat_send_guard` at concrete inputs: empty-token and
non-empty-token instances. -/
theorem c3_chat_send_guard_witness :
    dispatchStep ⟨⟨"u", "", "", ""⟩, none⟩
        ⟨.timeout, false, .ok ⟨some "s2", some "ok"⟩⟩ "hello" =
      ⟨⟨⟨"u", "", "", ""⟩, none⟩, .cont, [.notLoggedInErr]⟩ ∧
    dispatchStep ⟨⟨"u", "tok", "o", "e"⟩, some "s0"⟩
        ⟨.timeout, false, .ok ⟨some "s2", some "ok"⟩⟩ "hello" =
      ⟨⟨⟨"u", "tok", "o", "e"⟩, some "s2"⟩, .cont,
       [.chatRequest "hello" (some "s0"), .displayResponse "ok"]⟩ :=
  ⟨(c3_chat_send_guard ⟨⟨"u", "", "", ""⟩, none⟩
      ⟨.timeout, false, .ok ⟨some "s2", some "ok"⟩⟩ "hello"
      (by decide) (by decide)).1 rfl,
   (c3_chat_send_guard ⟨⟨"u", "tok", "o", "e"⟩, some "s0"⟩
      ⟨.timeout, false, .ok ⟨some "s2", some "ok"⟩⟩ "hello"
      (by decide) (by decide)).2 (by decide) ⟨some "s2", some "ok"⟩ rfl⟩

/-- C4 counterexample: with a stored token whose `exp` is 0 and `now = 1000`
the session is not authenticated in the `isAuthenticated` sense, yet the
dispatcher still forwards the unrecognized command `/unknowncmd` to the
remote collaborator: the forwarding guard checks only that the token is
non-empty. -/
theorem c4_expired_token_still_forwards :
    check_auth "x.eyJleHAiOjB9.y" 1000 = .ok false ∧
    Effect.chatRequest "/unknowncmd" none ∈
      (dispatchStep
        ⟨⟨"http://localhost:9000", "x.eyJleHAiOjB9.y", "o1", "e@x"⟩, none⟩
        ⟨.timeout, false, .ok ⟨some "s1", some "hi"⟩⟩ "/unknowncmd").effects := by
  refine ⟨rfl, ?_⟩
  decide

/-- C4 (amended): for an input whose stripped text begins with `/` but is
not a recognized local command (it reaches the send branch), the dispatcher
forwards the raw input text verbatim to the remote collaborator (through the
same chat-send operation) exactly when the stored session token is
non-empty, and displays the response; with an empty token it reports an
error without forwarding. -/
theorem c4_forward_guard (st : CLIState) (env : StepEnv) (input : String)
    (_hslash : pyStartsWith (pyStrip input) "/" = true)
    (hsend : classifyInput input = .send) :
    (st.config.session_token = "" →
      dispatchStep st env input = ⟨st, .cont, [.notLoggedInErr]⟩) ∧
    (st.config.session_token ≠ "" →
      Effect.chatRequest input st.session_id ∈
        (dispatchStep st env input).effects ∧
      ∀ resp, env.chatResult = .ok resp →
        dispatchStep st env input =
          ⟨⟨st.config, resp.session_id⟩, .cont,
           [.chatRequest input st.session_id,
            .displayResponse (resp.response.getD "")]⟩) := by
  unfold dispatchStep
  rw [hsend]
  refine ⟨fun h => by simp [dispatchAct, h], fun h => ⟨?_, ?_⟩⟩
  · rcases hc : env.chatResult with err | resp
    · cases err <;> simp [dispatchAct, h, hc]
    · simp [dispatchAct, h, hc]
  · intro resp hr
    simp [dispatchAct, h, hr]

/-- Witness for `c4_forward_guard` at `/unknowncmd`: empty-token and
non-empty-token instances. -/
theorem c4_forward_guard_witness :
    dispatchStep ⟨⟨"u", "", "", ""⟩, none⟩
        ⟨.timeout, false, .ok ⟨some "s2", some "ok"⟩⟩ "/unknowncmd" =
      ⟨⟨⟨"u", "", "", ""⟩, none⟩, .cont, [.notLoggedInErr]⟩ ∧
    Effect.chatRequest "/unknowncmd" (some "s0") ∈
      (dispatchStep ⟨⟨"u", "tok", "o", "e"⟩, some "s0"⟩
        ⟨.timeout, false, .ok ⟨some "s2", some "ok"⟩⟩ "/unknowncmd").effects :=
  ⟨(c4_forward_guard ⟨⟨"u", "", "", ""⟩, none⟩
      ⟨.timeout, false, .ok ⟨some "s2", some "ok"⟩⟩ "/unknowncmd"
      (by decide) (by decide)).1 rfl,
   ((c4_forward_guard ⟨⟨"u", "tok", "o", "e"⟩, some "s0"⟩
      ⟨.timeout, false, .ok ⟨some "s2", some "ok"⟩⟩ "/unknowncmd"
      (by decide) (by decide)).2 (by decide)).1⟩

/-- C5: when a send-branch remote call is made (non-empty token), an
auth failure signalled by the remote collaborator produces the re-login
prompt and the loop continues to the next cycle; any other remote failure is
reported as a message and the loop also continues — neither crashes the
loop. -/
theorem c5_remote_failure_handling (st : CLIState) (env : StepEnv)
    (input : String) (hsend : classifyInput input = .send)
    (htok : st.config.session_token ≠ "") :
    (env.chatResult = .error .authError →
      (dispatchStep st env input).ctl = .cont ∧
      Effect.sessionExpiredPrompt ∈ (dispatchStep st env input).effects) ∧
    (∀ m, env.chatResult = .error (.apiError m) →
      (dispatchStep st env input).ctl = .cont ∧
      Effect.apiErrorMsg m ∈ (dispatchStep st env input).effects) := by
  unfold dispatchStep
  rw [hsend]
  constructor
  · intro h
    simp [dispatchAct, htok, h]
  · intro m h
    simp [dispatchAct, htok, h]

/-- Witness for `c5_remote_failure_handling`: an auth failure and an API
failure at concrete inputs. -/
theorem c5_remote_failure_witness :
    ((dispatchStep ⟨⟨"u", "tok", "o", "e"⟩, none⟩
        ⟨.timeout, false, .error .authError⟩ "hello").ctl = .cont ∧
      Effect.sessionExpiredPrompt ∈
        (dispatchStep ⟨⟨"u", "tok", "o", "e"⟩, none⟩
          ⟨.timeout, false, .error .authError⟩ "hello").effects) ∧
    ((dispatchStep ⟨⟨"u", "tok", "o", "e"⟩, none⟩
        ⟨.timeout, false, .error (.apiError "boom")⟩ "hello").ctl = .cont ∧
      Effect.apiErrorMsg "boom" ∈
        (dispatchStep ⟨⟨"u", "tok", "o", "e"⟩, none⟩
          ⟨.timeout, false, .error (.apiError "boom")⟩ "hello").effects) :=
  ⟨(c5_remote_failure_handling ⟨⟨"u", "tok", "o", "e"⟩, none⟩
      ⟨.timeout, false, .error .authError⟩ "hello"
      (by decide) (by decide)).1 rfl,
   (c5_remote_failure_handling ⟨⟨"u", "tok", "o", "e"⟩, none⟩
      ⟨.timeout, false, .error (.apiError "boom")⟩ "hello"
      (by decide) (by decide)).2 "boom" rfl⟩

/-- C6: the implementation `parse_jwt_expiry` agrees with the spec-worded
`parseExpirySpec` on every input string: exactly-3-segment guard, padding
restoration, base64url decode, JSON parse, and `exp` claim extraction, with
every failure collapsing to `None`. -/
theorem c6_parse_expiry_refines_spec (token : String) :
    parse_jwt_expiry token = parseExpirySpec token := by
  unfold parse_jwt_expiry parse_jwt_expiry_run parseExpirySpec
  rcases pySplit '.' token.data with _ | ⟨a, _ | ⟨b, _ | ⟨c, _ | ⟨d, tl⟩⟩⟩⟩ <;>
    dsimp only
  cases hb : urlsafe_b64decode (padPayload b) with
  | error e => rfl
  | ok decoded =>
    dsimp only [Except.toOption]
    cases hj : json_loads decoded with
    | error e => rfl
    | ok data =>
      dsimp only [Except.toOption]
      cases data with
      | obj fields =>
        dsimp only [dict_get, claimLookup]
        cases hl : lookupLast "exp" fields with
        | none => rfl
        | some v => cases v <;> rfl
      | null => rfl
      | bool bb => rfl
      | num n => rfl
      | str s => rfl
      | arr elems => rfl

/-- Witness-style instance for `c6_parse_expiry_refines_spec` (the theorem
itself has no hypothesis; this closed corollary evaluates both sides on a
concrete token). -/
theorem c6_parse_expiry_refines_spec_example :
    parse_jwt_expiry "x.eyJleHAiOjB9.y" = parseExpirySpec "x.eyJleHAiOjB9.y" :=
  c6_parse_expiry_refines_spec "x.eyJleHAiOjB9.y"

/-- C7: an input whose stripped, lowercased text is a local-auth alias is
handled locally — the loop continues and no chat/forward request reaches the
remote collaborator; `/new` exactly resets the conversation session id with
no remote interaction at all; blank input is a no-op cycle. -/
theorem c7_local_commands (st : CLIState) (env : StepEnv) (input : String) :
    (pyLower (pyStrip input) ∈
        (["/login", "/logout", "/status", "/new"] : List String) →
      (dispatchStep st env input).ctl = .cont ∧
      ∀ m sid, Effect.chatRequest m sid ∉ (dispatchStep st env input).effects) ∧
    (pyLower (pyStrip input) = "/new" →
      dispatchStep st env input = ⟨⟨st.config, none⟩, .cont, [.newConversation]⟩) ∧
    (pyStrip input = "" →
      dispatchStep st env input = ⟨st, .cont, []⟩) := by
  refine ⟨?_, ?_, ?_⟩
  · intro h
    have hne : pyStrip input ≠ "" := by
      intro he
      rw [he] at h
      exact absurd h (by decide)
    unfold dispatchStep classifyInput
    rw [if_neg hne]
    simp only [List.mem_cons, List.mem_singleton, List.not_mem_nil, or_false] at h
    rcases h with h | h | h | h <;> rw [h] <;>
      exact ⟨rfl, by intro m sid hmem; simp [dispatchAct, classifyCmd] at hmem⟩
  · intro h
    have hne : pyStrip input ≠ "" := by
      intro he
      rw [he] at h
      exact absurd h (by decide)
    unfold dispatchStep classifyInput
    rw [if_neg hne, h]
    rfl
  · intro h
    unfold dispatchStep classifyInput
    rw [if_pos h]
    rfl

/-- Witness for `c7_local_commands`: a lowercased `/NEW` with surrounding
whitespace resets the session id with no remote call; `/login` produces no
chat request; blank input is a no-op. -/
theorem c7_local_commands_witness :
    dispatchStep ⟨⟨"u", "tok", "o", "e"⟩, some "s7"⟩
        ⟨.timeout, false, .ok ⟨some "s2", some "ok"⟩⟩ " /NEW " =
      ⟨⟨⟨"u", "tok", "o", "e"⟩, none⟩, .cont, [.newConversation]⟩ ∧
    (∀ m sid, Effect.chatRequest m sid ∉
      (dispatchStep ⟨⟨"u", "tok", "o", "e"⟩, some "s7"⟩
        ⟨.timeout, false, .ok ⟨some "s2", some "ok"⟩⟩ "/login").effects) ∧
    dispatchStep ⟨⟨"u", "tok", "o", "e"⟩, some "s7"⟩
        ⟨.timeout, false, .ok ⟨some "s2", some "ok"⟩⟩ "   " =
      ⟨⟨⟨"u", "tok", "o", "e"⟩, some "s7"⟩, .cont, []⟩ :=
  ⟨(c7_local_commands ⟨⟨"u", "tok", "o", "e"⟩, some "s7"⟩
      ⟨.timeout, false, .ok ⟨some "s2", some "ok"⟩⟩ " /NEW ").2.1 (by decide),
   (c7_local_commands ⟨⟨"u", "tok", "o", "e"⟩, some "s7"⟩
      ⟨.timeout, false, .ok ⟨some "s2", some "ok"⟩⟩ "/login").1 (by decide) |>.2,
   (c7_local_commands ⟨⟨"u", "tok", "o", "e"⟩, some "s7"⟩
      ⟨.timeout, false, .ok ⟨some "s2", some "ok"⟩⟩ "   ").2.2 (by decide)⟩

/-- C8: clearing the session is idempotent and leaves all three identity
fields empty; a login followed immediately by a clear is the same state as
clearing without the login; and both mutations preserve the invariant that
either the whole identity is empty or the token is non-empty. -/
theorem c8_session_identity (c : Config) (o : LoginOutcome)
    (hinv : sessionInvariant c) :
    clearSession (clearSession c) = clearSession c ∧
    identityEmpty (clearSession c) ∧
    identityEmpty (clearSession (clearSession c)) ∧
    clearSession (login c o).config = clearSession c ∧
    sessionInvariant (clearSession c) ∧
    sessionInvariant (login c o).config := by
  refine ⟨rfl, ⟨rfl, rfl, rfl⟩, ⟨rfl, rfl, rfl⟩, ?_, Or.inl ⟨rfl, rfl, rfl⟩, ?_⟩
  · cases o with
    | raised => rfl
    | timeout => rfl
    | result r =>
      rcases r with ⟨err, tok, oid, em⟩
      cases err with
      | some e => rfl
      | none =>
        cases tok with
        | none => rfl
        | some t =>
          by_cases ht : t = ""
          · subst ht; rfl
          · simp [login, truthyOpt, ht, clearSession]
  · cases o with
    | raised => exact hinv
    | timeout => exact hinv
    | result r =>
      rcases r with ⟨err, tok, oid, em⟩
      cases err with
      | some e => exact hinv
      | none =>
        cases tok with
        | none => exact hinv
        | some t =>
          by_cases ht : t = ""
          · subst ht; exact hinv
          · right
            simp [login, truthyOpt, ht]

/-- Witness for `c8_session_identity` at a concrete logged-in state and a
timeout login outcome. -/
theorem c8_session_identity_witness :
    clearSession (clearSession ⟨"u", "t", "o", "e"⟩) =
      clearSession ⟨"u", "t", "o", "e"⟩ ∧
    identityEmpty (clearSession ⟨"u", "t", "o", "e"⟩) ∧
    identityEmpty (clearSession (clearSession ⟨"u", "t", "o", "e"⟩)) ∧
    clearSession (login ⟨"u", "t", "o", "e"⟩ .timeout).config =
      clearSession ⟨"u", "t", "o", "e"⟩ ∧
    sessionInvariant (clearSession ⟨"u", "t", "o", "e"⟩) ∧
    sessionInvariant (login ⟨"u", "t", "o", "e"⟩ .timeout).config :=
  c8_session_identity ⟨"u", "t", "o", "e"⟩ .timeout (Or.inr (by decide))

/-- C9: every failure outcome of the login flow — raised exception, `None`
(timeout) result, result carrying an `error`, or result without a truthy
token — leaves the configuration and the API client token unchanged and
does not save; the configuration is saved exactly when the result carries a
non-empty token. -/
theorem c9_login_failure_preserves_session (c : Config) (o : LoginOutcome) :
    login c o = ⟨c, false, none⟩ ∨
    ∃ r t, o = .result r ∧ r.error = none ∧ r.token = some t ∧ t ≠ "" ∧
      login c o = ⟨⟨c.api_server_url, t, r.owner_id.getD "", r.email.getD ""⟩,
        true, some t⟩ := by
  cases o with
  | raised => exact Or.inl rfl
  | timeout => exact Or.inl rfl
  | result r =>
    rcases r with ⟨err, tok, oid, em⟩
    cases err with
    | some e => exact Or.inl rfl
    | none =>
      cases tok with
      | none => exact Or.inl rfl
      | some t =>
        by_cases ht : t = ""
        · subst ht
          exact Or.inl rfl
        · refine Or.inr ⟨⟨none, some t, oid, em⟩, t, rfl, rfl, rfl, ht, ?_⟩
          simp [login, truthyOpt, ht]

/-- C10: `logout` clears all three identity fields and saves the
configuration for every outcome of the remote logout call, including when
that call raises. -/
theorem c10_logout_always_clears (c : Config) (remoteRaises : Bool) :
    logoutRun c remoteRaises = (⟨c.api_server_url, "", "", ""⟩, true) := by
  cases remoteRaises <;> rfl

end Zylch
